import Mathlib

/-!
Verification of the asset-resolution and render-resource lifecycle core of the
3D-Model-Viewer-and-Generator repository, against its specification.

Numbers are modelled as exact rationals (`ℚ`); JS strings as Lean `String`;
optional / possibly-`undefined` JS values as `Option`.  The shallow embedding
below follows the source files:

  * `src/components/scene/ModelViewer.tsx`  — URL resolution (`cacheAndGetLocalUrl`,
    `setupModelUrl`), scene normalization, material normalization, transform
    application;
  * `src/components/scene/ThreeScene.tsx`   — WebGL context-loss recovery state
    machine (`getRetryDelay`, `handleContextLost`, `handleContextRestored`,
    `reduceRenderQuality`, model-change effect, error-dismiss handler,
    `disposeUnusedObjects`);
  * `supabase/functions/proxy-model/index.ts` — proxy auth-header selection.
-/

namespace ModelViewer

/-- A three-component vector of exact rationals, standing in for `THREE.Vector3`. -/
structure Vec3 where
  x : ℚ
  y : ℚ
  z : ℚ
  deriving DecidableEq, Repr

/-- Componentwise addition, as in `Vector3.add`. -/
def Vec3.add (a b : Vec3) : Vec3 := ⟨a.x + b.x, a.y + b.y, a.z + b.z⟩

/-- Componentwise subtraction, as in `Vector3.sub`. -/
def Vec3.sub (a b : Vec3) : Vec3 := ⟨a.x - b.x, a.y - b.y, a.z - b.z⟩

/-- Scalar multiple of a vector, as in `Vector3.multiplyScalar`. -/
def Vec3.smul (c : ℚ) (a : Vec3) : Vec3 := ⟨c * a.x, c * a.y, c * a.z⟩

/-- An axis-aligned bounding box, standing in for `THREE.Box3`. -/
structure Box3 where
  min : Vec3
  max : Vec3
  deriving DecidableEq, Repr

/-- `Box3.getSize`: the componentwise extent of the box. -/
def Box3.size (b : Box3) : Vec3 := b.max.sub b.min

/-- `Box3.getCenter`: the midpoint of the box. -/
def Box3.center (b : Box3) : Vec3 := Vec3.smul (1/2) (b.min.add b.max)

/-- `Math.max(size.x, size.y, size.z)` as computed in the normalization effect. -/
def Box3.maxDim (b : Box3) : ℚ := Max.max (Max.max b.size.x b.size.y) b.size.z

/-- Material side constants (`THREE.FrontSide` / `THREE.BackSide` / `THREE.DoubleSide`). -/
inductive Side where
  | front
  | back
  | double
  deriving DecidableEq, Repr

/-- A material of the loaded scene.  `isStandard = true` models
`material instanceof THREE.MeshStandardMaterial` (the physically-based variant);
every modelled material is a `THREE.Material` (the code's
`material instanceof THREE.Material` test). -/
structure SceneMaterial where
  isStandard : Bool
  side : Side
  metalness : ℚ
  roughness : ℚ
  color : String
  wireframe : Bool
  deriving DecidableEq, Repr

/-- A renderable child of the scene graph, as visited by `scene.traverse`.
`isMesh` models the `(child as THREE.Mesh).isMesh` test; `materials` is the
mesh's material slot, normalized to a list (the code wraps a non-array
`mesh.material` into a one-element array before iterating). -/
structure SceneMesh where
  isMesh : Bool
  materials : List SceneMaterial
  deriving DecidableEq, Repr

/-- The state of the loaded `gltfScene` object touched by the two effects of
`ModelViewer`: its top-level position / scale / rotation and the materials of
the meshes reached by `traverse`.  `rawBox` is the axis-aligned bounding box of
the scene's geometry in its own coordinates, the value `new
THREE.Box3().setFromObject(gltfScene)` reads off before any transform is set. -/
structure SceneState where
  position : Vec3
  scale : Vec3
  rotation : Vec3
  meshes : List SceneMesh
  rawBox : Box3
  deriving DecidableEq, Repr

/-- Material normalization applied by the processing effect
(`ModelViewer.tsx` lines 159–176): every material is forced double-sided, and a
`MeshStandardMaterial` additionally gets `metalness = 0.5` and
`roughness = 0.5` (unconditional assignments in the source). -/
def normalizeMaterial (m : SceneMaterial) : SceneMaterial :=
  let m' := { m with side := Side.double }
  if m'.isStandard then { m' with metalness := 1/2, roughness := 1/2 } else m'

/-- One traverse step of the processing effect: the material mutation is applied
to every material of a node that passes the `isMesh` test. -/
def normalizeMesh (m : SceneMesh) : SceneMesh :=
  if m.isMesh then { m with materials := m.materials.map normalizeMaterial } else m

/-- The whole processing effect of `ModelViewer` (lines 146–176): compute the
bounding box, set `scale = 2 / maxDim` (or `1` when `maxDim ≤ 0`) uniformly,
set `position = -center * scale`, and normalize every material. -/
def processModel (s : SceneState) : SceneState :=
  let box := s.rawBox
  let center := box.center
  let maxDim := box.maxDim
  let scale : ℚ := if maxDim > 0 then 2 / maxDim else 1
  { s with
    position := ⟨-center.x * scale, -center.y * scale, -center.z * scale⟩
    scale := ⟨scale, scale, scale⟩
    meshes := s.meshes.map normalizeMesh }

/-- The world-space bounding box of the scene after its `position` and
(uniform, positive) `scale` are set: every geometry point `p` of `rawBox` maps
to `scale ⊙ p + position`. -/
def SceneState.worldBox (s : SceneState) : Box3 :=
  { min := ⟨s.scale.x * s.rawBox.min.x + s.position.x,
            s.scale.y * s.rawBox.min.y + s.position.y,
            s.scale.z * s.rawBox.min.z + s.position.z⟩
    max := ⟨s.scale.x * s.rawBox.max.x + s.position.x,
            s.scale.y * s.rawBox.max.y + s.position.y,
            s.scale.z * s.rawBox.max.z + s.position.z⟩ }

/-- The editor's transform value (`ModelTransform` in `ModelEditor`).  `color`
and `wireframe` are `Option`s because the transform effect in `ModelViewer`
guards them against absent values (`if (transform.color)`,
`if (transform.wireframe !== undefined)`); `none` models `undefined` and the
string `""` is JS-falsy for `color`. -/
structure ModelTransform where
  scale : ℚ
  rotationX : ℚ
  rotationY : ℚ
  rotationZ : ℚ
  color : Option String
  wireframe : Option Bool
  deriving DecidableEq, Repr

/-- JS truthiness of `transform.color`: `undefined` and the empty string are falsy. -/
def colorTruthy : Option String → Bool
  | none => false
  | some c => !(c == "")

/-- Per-material part of the transform effect (`ModelViewer.tsx` lines 204–213):
only a `MeshStandardMaterial` is touched; the tint is assigned only when
`transform.color` is truthy, the wireframe flag only when it is not `undefined`. -/
def applyMaterialTransform (t : ModelTransform) (m : SceneMaterial) : SceneMaterial :=
  if m.isStandard then
    { m with
      color := match t.color with
        | some c => if c == "" then m.color else c
        | none => m.color
      wireframe := match t.wireframe with
        | some w => w
        | none => m.wireframe }
  else m

/-- The transform effect of `ModelViewer` (lines 190–216), parametrized by the
degree-to-radian conversion `d2r` (`THREE.MathUtils.degToRad`, an external
three.js helper multiplying by its approximation of π/180; its exact value
never matters to the claims below).  Note the source applies
`scale.multiplyScalar(transform.scale)` — a multiplicative update — while the
three rotation components are assigned absolutely. -/
def applyTransformEffect (d2r : ℚ → ℚ) (s : SceneState) (t : ModelTransform) : SceneState :=
  { s with
    scale := Vec3.smul t.scale s.scale
    rotation := ⟨d2r t.rotationX, d2r t.rotationY, d2r t.rotationZ⟩
    meshes := s.meshes.map fun m =>
      if m.isMesh then { m with materials := m.materials.map (applyMaterialTransform t) } else m }

end ModelViewer

namespace JsString

/-- JS `String.prototype.startsWith`, modelled on the character list. -/
def jsStartsWith (s pre : String) : Bool := pre.data.isPrefixOf s.data

/-- Whether `pat` occurs as a contiguous run inside `l`. -/
def listContains (pat : List Char) : List Char → Bool
  | [] => pat.isPrefixOf []
  | c :: rest => pat.isPrefixOf (c :: rest) || listContains pat rest

/-- JS `String.prototype.includes`, modelled on the character list. -/
def jsIncludes (s sub : String) : Bool := listContains sub.data s.data

/-- JS `String.prototype.endsWith`, modelled on the character list. -/
def jsEndsWith (s suf : String) : Bool := suf.data.isSuffixOf s.data

/-- The base64 alphabet used by `btoa`: index 0–25 → `A`–`Z`, 26–51 → `a`–`z`,
52–61 → `0`–`9`, 62 → `+`, 63 → `/`. -/
def b64Char (n : ℕ) : Char :=
  if n < 26 then Char.ofNat (65 + n)
  else if n < 52 then Char.ofNat (97 + (n - 26))
  else if n < 62 then Char.ofNat (48 + (n - 52))
  else if n = 62 then Char.ofNat 43
  else Char.ofNat 47

/-- Base64-encode a byte list, three bytes to four output characters, padding
with `=` exactly as `btoa` does. -/
def b64Chunks : List ℕ → List Char
  | [] => []
  | [a] => [b64Char (a / 4), b64Char (a % 4 * 16), Char.ofNat 61, Char.ofNat 61]
  | [a, b] => [b64Char (a / 4), b64Char (a % 4 * 16 + b / 16), b64Char (b % 16 * 4), Char.ofNat 61]
  | a :: b :: c :: rest =>
    b64Char (a / 4) :: b64Char (a % 4 * 16 + b / 16) :: b64Char (b % 16 * 4 + c / 64)
      :: b64Char (c % 64) :: b64Chunks rest

/-- JS `btoa` on a latin-1 string: base64 of the string's code points
(the model is used only on ASCII URLs, where code point = byte). -/
def jsBtoa (s : String) : String := String.mk (b64Chunks (s.data.map Char.toNat))

/-- An uppercase hexadecimal digit, as produced by `encodeURIComponent`. -/
def hexDigit (n : ℕ) : Char := if n < 10 then Char.ofNat (48 + n) else Char.ofNat (55 + n)

/-- Bytes left unescaped by `encodeURIComponent`:
`A`–`Z`, `a`–`z`, `0`–`9` and `- _ . ! ~ * ' ( )`. -/
def isUnreservedByte (b : ℕ) : Bool :=
  (decide (65 ≤ b) && decide (b ≤ 90)) || (decide (97 ≤ b) && decide (b ≤ 122)) ||
  (decide (48 ≤ b) && decide (b ≤ 57)) ||
  decide (b ∈ [45, 95, 46, 33, 126, 42, 39, 40, 41])

/-- The UTF-8 encoding of a code point, as a list of byte values. -/
def utf8Bytes (n : ℕ) : List ℕ :=
  if n < 128 then [n]
  else if n < 2048 then [192 + n / 64, 128 + n % 64]
  else if n < 65536 then [224 + n / 4096, 128 + n / 64 % 64, 128 + n % 64]
  else [240 + n / 262144, 128 + n / 4096 % 64, 128 + n / 64 % 64, 128 + n % 64]

/-- JS `encodeURIComponent`: percent-encode every UTF-8 byte outside the
unreserved set, with uppercase hex digits. -/
def encodeURIComponent (s : String) : String :=
  String.mk <| (s.data.flatMap fun c => utf8Bytes c.toNat).flatMap fun n =>
    if isUnreservedByte n then [Char.ofNat n]
    else [Char.ofNat 37, hexDigit (n / 16), hexDigit (n % 16)]

end JsString

namespace Resolver

open JsString ModelViewer

/-- The cache key computed by `cacheAndGetLocalUrl`
(`ModelViewer.tsx` line 43): `models/` followed by the URL-safe base64 of the
external URL (`+`→`-`, `/`→`_`, trailing `=` stripped). -/
def cacheKey (externalUrl : String) : String :=
  let urlSafe : Char → Char := fun c =>
    if c = Char.ofNat 43 then Char.ofNat 45
    else if c = Char.ofNat 47 then Char.ofNat 95 else c
  let replaced := (jsBtoa externalUrl).data.map urlSafe
  "models/" ++ String.mk ((replaced.reverse.dropWhile (· = Char.ofNat 61)).reverse)

/-- The Content Cache: the `models` bucket of the remote store, as a key → blob
association list (blobs are kept abstract as strings). -/
def Cache := List (String × String)

/-- One observable fetch side effect issued while resolving and loading a model. -/
inductive FetchAction where
  /-- `supabase.storage.from('models').download(key)` — the remote cache lookup. -/
  | cacheDownload (key : String)
  /-- `fetch(url, { method: 'HEAD' })` — a direct existence probe. -/
  | headProbe (url : String)
  /-- the GLTF loader fetching the asset through `/api/proxy-model`. -/
  | proxyFetch (target : String)
  /-- the GLTF loader fetching a URL directly. -/
  | directFetch (url : String)
  deriving DecidableEq, Repr

/-- The model URL that `setupModelUrl` settles on. -/
inductive ResolvedUrl where
  /-- `URL.createObjectURL(cachedData)` — a local object URL over the cached blob. -/
  | objectUrl (blob : String)
  /-- `/api/proxy-model?url=...` — the Transfer Proxy route for a target URL. -/
  | proxyUrl (target : String)
  /-- a same-origin local path, verified by a HEAD probe. -/
  | localUrl (path : String)
  /-- `/models/cube.gltf` — the placeholder set by the error path. -/
  | fallbackCube
  deriving DecidableEq, Repr

/-- Outcome of one resolution: the actions it issued, the URL it settled on,
and the Content Cache afterwards. -/
structure ResolveOutcome where
  actions : List FetchAction
  result : ResolvedUrl
  cache : List (String × String)
  deriving DecidableEq, Repr

/-- `cacheAndGetLocalUrl` (`ModelViewer.tsx` lines 31–71): a local URL is
returned untouched; otherwise the remote cache is consulted under `cacheKey`
and, on a hit, an object URL over the cached blob is returned; on a miss the
function falls through to the proxy route.  Note that no branch writes to the
cache — the function only ever calls `download`. -/
def cacheAndGetLocalUrl (cache : List (String × String)) (externalUrl : String) :
    ResolveOutcome :=
  if jsStartsWith externalUrl "/" then
    { actions := [], result := ResolvedUrl.localUrl externalUrl, cache := cache }
  else
    let key := cacheKey externalUrl
    match cache.lookup key with
    | some blob =>
      { actions := [FetchAction.cacheDownload key]
        result := ResolvedUrl.objectUrl blob
        cache := cache }
    | none =>
      { actions := [FetchAction.cacheDownload key]
        result := ResolvedUrl.proxyUrl ("/api/proxy-model?url=" ++ encodeURIComponent externalUrl)
        cache := cache }

/-- The spec's classification of an `AssetReference`, as the branch structure of
`setupModelUrl` realizes it. -/
inductive RefClass where
  | knownProviderHost
  | unknownExternalHost
  | localPath
  deriving DecidableEq, Repr

/-- Which branch of `setupModelUrl` a URL takes (`ModelViewer.tsx` lines
87–117): provider URLs (`meshy.ai` / `storage.googleapis.com` substrings),
then other `http…` URLs, then local paths. -/
def classify (url : String) : RefClass :=
  if jsIncludes url "meshy.ai" || jsIncludes url "storage.googleapis.com" then
    RefClass.knownProviderHost
  else if jsStartsWith url "http" then RefClass.unknownExternalHost
  else RefClass.localPath

/-- `setupModelUrl` (`ModelViewer.tsx` lines 74–124), with the outside world
abstracted by `headOk` (whether a HEAD probe of a URL succeeds).  An empty URL
and a failed local HEAD probe hit the catch block, which falls back to
`/models/cube.gltf`. -/
def setupModelUrl (headOk : String → Bool) (cache : List (String × String))
    (url : String) : ResolveOutcome :=
  if url = "" then { actions := [], result := ResolvedUrl.fallbackCube, cache := cache }
  else
    match classify url with
    | RefClass.knownProviderHost => cacheAndGetLocalUrl cache url
    | RefClass.unknownExternalHost => cacheAndGetLocalUrl cache url
    | RefClass.localPath =>
      let localUrl := if jsStartsWith url "/" then url else "/" ++ url
      if headOk localUrl then
        { actions := [FetchAction.headProbe localUrl]
          result := ResolvedUrl.localUrl localUrl
          cache := cache }
      else
        { actions := [FetchAction.headProbe localUrl]
          result := ResolvedUrl.fallbackCube
          cache := cache }

/-- The fetch the GLTF loader then performs on the settled model URL: an object
URL is read locally (no fetch); the proxy route and plain URLs are fetched. -/
def finalLoad : ResolvedUrl → List FetchAction
  | ResolvedUrl.objectUrl _ => []
  | ResolvedUrl.proxyUrl target => [FetchAction.proxyFetch target]
  | ResolvedUrl.localUrl path => [FetchAction.directFetch path]
  | ResolvedUrl.fallbackCube => [FetchAction.directFetch "/models/cube.gltf"]

/-- One full resolution of an asset reference: `setupModelUrl` followed by the
loader fetching the resulting URL. -/
def resolveModel (headOk : String → Bool) (cache : List (String × String))
    (url : String) : ResolveOutcome :=
  let o := setupModelUrl headOk cache url
  { o with actions := o.actions ++ finalLoad o.result }

/-- Whether an action fetches the asset itself over the network (directly or
via the proxy), as opposed to the cache lookup or a HEAD probe. -/
def FetchAction.isNetworkAssetFetch : FetchAction → Bool
  | FetchAction.proxyFetch _ => true
  | FetchAction.directFetch _ => true
  | _ => false

/-- Whether an action is a direct existence probe. -/
def FetchAction.isHeadProbe : FetchAction → Bool
  | FetchAction.headProbe _ => true
  | _ => false

/-- Whether an action goes through the Transfer Proxy. -/
def FetchAction.isProxyFetch : FetchAction → Bool
  | FetchAction.proxyFetch _ => true
  | _ => false

end Resolver

namespace ProxyModel

open JsString

/-- JS truthiness of the `token` query parameter (`url.searchParams.get` yields
`null` — modelled `none` — or a string; the empty string is falsy). -/
def isTruthy : Option String → Bool
  | none => false
  | some s => !(s == "")

/-- The `Authorization` header the proxy attaches to its upstream request
(`proxy-model/index.ts` lines 43–54): when the model URL *contains* the
substring `meshy.ai`, the server-held `MESHY_API_KEY` is used (and, the key
being empty, no header at all); otherwise the caller's `token` query parameter
is forwarded when truthy. -/
def selectAuthHeader (modelUrl : String) (authToken : Option String)
    (meshyKey : String) : Option String :=
  if jsIncludes modelUrl "meshy.ai" then
    if meshyKey == "" then none else some ("Bearer " ++ meshyKey)
  else if isTruthy authToken then some ("Bearer " ++ authToken.getD "")
  else none

/-- The characters following the first occurrence of `://`, when there is one. -/
def afterScheme : List Char → Option (List Char)
  | [] => none
  | c :: rest =>
    if [Char.ofNat 58, Char.ofNat 47, Char.ofNat 47].isPrefixOf (c :: rest) then
      some (rest.drop 2)
    else afterScheme rest

/-- Modelled from the spec: the "target host" of a URL — the authority part
between `://` and the following `/`.  The proxy source never parses the URL
(it only runs a substring test), so the claim's host-based phrasing needs this
spec-side definition to be stated. -/
def hostOf (url : String) : String :=
  match afterScheme url.data with
  | none => ""
  | some l => String.mk (l.takeWhile fun c => !(c == Char.ofNat 47))

/-- Modelled from the spec: whether a host is the known generation provider
(the `meshy.ai` domain or one of its subdomains). -/
def isProviderHost (h : String) : Bool :=
  h == "meshy.ai" || jsEndsWith h ".meshy.ai"

end ProxyModel

namespace ThreeScene

/-- The slice of `ThreeScene` component state driven by the context-loss
recovery handlers (`ThreeScene.tsx`).  `pendingRetry` models the
`retryTimerRef` timer: `some (delay, captured)` is a scheduled restoration
attempt with its delay in ms and the `retryCount` value the scheduling closure
captured; `none` means no timer. -/
structure CompState where
  retryCount : ℕ
  contextLost : Bool
  error : Option String
  pendingRetry : Option (ℕ × ℕ)
  renderQuality : ℚ × ℚ
  isLoading : Bool
  fallbackToDefault : Bool
  deriving DecidableEq, Repr

/-- `const maxRetries = 3` (`ThreeScene.tsx` line 128). -/
def maxRetries : ℕ := 3

/-- `getRetryDelay` (`ThreeScene.tsx` lines 136–138):
`Math.min(1000 * Math.pow(2, attempt), 8000)`. -/
def getRetryDelay (attempt : ℕ) : ℕ := Min.min (1000 * 2 ^ attempt) 8000

/-- `reduceRenderQuality` (`ThreeScene.tsx` lines 152–157): drop the DPR range
to `[0.5, 1]` when its lower bound still exceeds `0.5`. -/
def reduceRenderQuality (q : ℚ × ℚ) : ℚ × ℚ :=
  if q.1 > 1/2 then (1/2, 1) else q

/-- The component's initial state: `retryCount = 0`, no error, no timer,
`renderQuality = [1, 1.5]`. -/
def initialState : CompState :=
  { retryCount := 0
    contextLost := false
    error := none
    pendingRetry := none
    renderQuality := (1, 3/2)
    isLoading := true
    fallbackToDefault := false }

/-- The events that drive the recovery machine. -/
inductive SceneEvent where
  /-- a `webglcontextlost` event (handled by `handleContextLost`). -/
  | contextLost
  /-- the scheduled restoration timer firing (the `setTimeout` callback). -/
  | retryTimerFired
  /-- a `webglcontextrestored` event (handled by `handleContextRestored`). -/
  | contextRestored
  /-- `currentModel` changing (the model-change effect, lines 193–211). -/
  | modelChanged
  /-- the user clicking Dismiss on the error banner (lines 263–275). -/
  | dismissError
  deriving DecidableEq, Repr

/-- `handleContextLost` (`ThreeScene.tsx` lines 213–242): mark the context
lost, clear any previous timer, and — while `retryCount < maxRetries` —
schedule a restoration attempt after `getRetryDelay retryCount` ms (the
closure capturing the current `retryCount`); at the budget, surface the
non-auto-recoverable error instead. -/
def handleContextLost (s : CompState) : CompState :=
  let s1 := { s with contextLost := true, pendingRetry := none }
  if s.retryCount < maxRetries then
    { s1 with pendingRetry := some (getRetryDelay s.retryCount, s.retryCount) }
  else
    { s1 with error := some "WebGL context could not be restored. Please refresh the page." }

/-- The scheduled `setTimeout` callback (lines 227–238): increment
`retryCount`, reduce render quality when the captured `retryCount` was
positive, and clear `contextLost` to force canvas recreation.  With no timer
pending the event does nothing. -/
def fireRetryTimer (s : CompState) : CompState :=
  match s.pendingRetry with
  | none => s
  | some (_, captured) =>
    { s with
      retryCount := s.retryCount + 1
      renderQuality := if captured > 0 then reduceRenderQuality s.renderQuality else s.renderQuality
      contextLost := false
      pendingRetry := none }

/-- `handleContextRestored` (lines 244–255): clear `contextLost`, reset
`retryCount` to 0, clear the error and the timer.  Render quality is left as
it is. -/
def handleContextRestored (s : CompState) : CompState :=
  { s with contextLost := false, retryCount := 0, error := none, pendingRetry := none }

/-- The model-change effect (lines 193–211): reset error / fallback / loading /
context-lost / retry state and clear the timer.  Render quality is untouched. -/
def handleModelChanged (s : CompState) : CompState :=
  { s with
    error := none
    fallbackToDefault := false
    isLoading := true
    contextLost := false
    retryCount := 0
    pendingRetry := none }

/-- The Dismiss button handler (lines 263–275): clear the error, reset
`retryCount` and `contextLost`, and bounce `isLoading` (net effect false).
Neither the pending timer nor the render quality is touched. -/
def handleDismissError (s : CompState) : CompState :=
  { s with error := none, retryCount := 0, contextLost := false, isLoading := false }

/-- The recovery machine's transition function. -/
def step (s : CompState) : SceneEvent → CompState
  | SceneEvent.contextLost => handleContextLost s
  | SceneEvent.retryTimerFired => fireRetryTimer s
  | SceneEvent.contextRestored => handleContextRestored s
  | SceneEvent.modelChanged => handleModelChanged s
  | SceneEvent.dismissError => handleDismissError s

/-- A node of the display graph as `disposeUnusedObjects` sees it: the
`isMesh` / `visible` flags, the `parent !== null` observation (`hasParent`),
and the `children` the traversal descends into. -/
inductive SceneNode where
  | mk (isMesh : Bool) (visible : Bool) (hasParent : Bool) (children : List SceneNode)
  deriving Repr

/-- The node's `isMesh` flag. -/
def SceneNode.isMesh : SceneNode → Bool
  | SceneNode.mk m _ _ _ => m

/-- The node's `visible` flag. -/
def SceneNode.visible : SceneNode → Bool
  | SceneNode.mk _ v _ _ => v

/-- Whether the node's `parent` field is non-null. -/
def SceneNode.hasParent : SceneNode → Bool
  | SceneNode.mk _ _ p _ => p

/-- The node's children. -/
def SceneNode.children : SceneNode → List SceneNode
  | SceneNode.mk _ _ _ cs => cs

mutual

/-- `disposeUnusedObjects` (`ThreeScene.tsx` lines 328–353), as the list of
nodes whose geometry and materials it disposes: `scene.traverse` visits the
node and its descendants, and a node is disposed exactly when it is a mesh,
invisible, and its `parent` is null. -/
def SceneNode.collectDisposed : SceneNode → List SceneNode
  | SceneNode.mk m v p cs =>
    (if m && !v && !p then [SceneNode.mk m v p cs] else []) ++ collectDisposedList cs

/-- The traversal over a children list. -/
def collectDisposedList : List SceneNode → List SceneNode
  | [] => []
  | n :: rest => n.collectDisposed ++ collectDisposedList rest

end

/-- The canonical consecutive-failure run: `lossFireTrace n` is the component
state after `n` rounds of a context-loss event followed by the scheduled
restoration attempt firing, starting from the initial state. -/
def lossFireTrace : ℕ → CompState
  | 0 => initialState
  | n + 1 => step (step (lossFireTrace n) SceneEvent.contextLost) SceneEvent.retryTimerFired

/-- The states the recovery machine can reach from its initial state. -/
inductive Reachable : CompState → Prop where
  | init : Reachable initialState
  | next {s : CompState} (h : Reachable s) (e : SceneEvent) : Reachable (step s e)

mutual

/-- three.js parent/child consistency: `Object3D.add` sets `child.parent`, so
every node sitting in some `children` array has a non-null `parent`. -/
def SceneNode.consistent : SceneNode → Bool
  | SceneNode.mk _ _ _ cs => consistentChildren cs

/-- Consistency of a children list: each child's `parent` is set and the
child's own subtree is consistent. -/
def consistentChildren : List SceneNode → Bool
  | [] => true
  | n :: rest => n.hasParent && n.consistent && consistentChildren rest

end

end ThreeScene

namespace Fixtures

open ModelViewer

/-- A loaded scene at unit scale with no meshes, used as a concrete input. -/
def plainScene : SceneState :=
  { position := ⟨0, 0, 0⟩
    scale := ⟨1, 1, 1⟩
    rotation := ⟨0, 0, 0⟩
    meshes := []
    rawBox := ⟨⟨0, 0, 0⟩, ⟨1, 1, 1⟩⟩ }

/-- An editor transform with scale 2 and no tint / wireframe fields. -/
def doubleTransform : ModelTransform :=
  { scale := 2, rotationX := 90, rotationY := 45, rotationZ := 0
    color := none, wireframe := none }

/-- A physically-based material with author-specified metalness 0.9 and
roughness 0.1. -/
def authoredMaterial : SceneMaterial :=
  { isStandard := true, side := Side.front, metalness := 9/10, roughness := 1/10
    color := "#aabbcc", wireframe := true }

/-- A scene holding one mesh with the authored material. -/
def authoredScene : SceneState :=
  { position := ⟨0, 0, 0⟩
    scale := ⟨1, 1, 1⟩
    rotation := ⟨0, 0, 0⟩
    meshes := [{ isMesh := true, materials := [authoredMaterial] }]
    rawBox := ⟨⟨0, 0, 0⟩, ⟨4, 2, 1⟩⟩ }

end Fixtures

/-! ## Theorems -/

open ModelViewer JsString Resolver ProxyModel ThreeScene Fixtures

/-- Pulling a nonnegative factor out of a binary maximum of rationals. -/
theorem rat_mul_max (c a b : ℚ) (h : 0 ≤ c) :
    Max.max (c * a) (c * b) = c * Max.max a b := by
  rcases max_cases a b with ⟨h1, h2⟩ | ⟨h1, h2⟩ <;>
    simp [h1, max_eq_left, max_eq_right, mul_le_mul_of_nonneg_left, le_of_lt, *]

/-- Mapping two pointwise-equal functions over a list gives the same list. -/
theorem map_eq_of_fun_eq {α β : Type} {f g : α → β} (h : ∀ a, f a = g a)
    (l : List α) : l.map f = l.map g := by
  rw [show f = g from funext h]

/-- C1: the claim FAILS on the code.  The spec requires `apply(scene, T)` to be
idempotent — re-application must not compound rotation or scale — but the
transform effect updates the scale with `scale.multiplyScalar(transform.scale)`,
a multiplicative update.  At this failing input (a unit-scaled scene,
`T.scale = 2`) one application leaves scale `(2,2,2)` and a second application
of the same `T` leaves `(4,4,4)`; the rotation components, assigned absolutely,
are unchanged by the second application. -/
theorem transform_reapply_compounds_scale :
    (applyTransformEffect id plainScene doubleTransform).scale = ⟨2, 2, 2⟩ ∧
    (applyTransformEffect id (applyTransformEffect id plainScene doubleTransform)
        doubleTransform).scale = ⟨4, 4, 4⟩ ∧
    (applyTransformEffect id (applyTransformEffect id plainScene doubleTransform)
        doubleTransform).scale ≠
      (applyTransformEffect id plainScene doubleTransform).scale ∧
    (applyTransformEffect id (applyTransformEffect id plainScene doubleTransform)
        doubleTransform).rotation =
      (applyTransformEffect id plainScene doubleTransform).rotation := by
  refine ⟨?_, ?_, ?_, ?_⟩ <;>
    norm_num [applyTransformEffect, Vec3.smul, plainScene, doubleTransform, Vec3.mk.injEq]

/-- C5 counterexample: the claim that author-specified metalness/roughness are
kept fails — the processing effect assigns `metalness = 0.5` and
`roughness = 0.5` unconditionally, clobbering the authored 0.9/0.1. -/
theorem material_normalization_clobbers_authored_pbr :
    (processModel authoredScene).meshes =
      [{ isMesh := true
         materials := [{ isStandard := true, side := Side.double, metalness := 1/2,
                         roughness := 1/2, color := "#aabbcc", wireframe := true }] }] ∧
    authoredMaterial.metalness ≠ 1/2 ∧ authoredMaterial.roughness ≠ 1/2 := by
  refine ⟨?_, by norm_num [authoredMaterial], by norm_num [authoredMaterial]⟩
  norm_num [processModel, normalizeMesh, normalizeMaterial, authoredScene, authoredMaterial]

/-- C5 (amended): after processing, every material of every mesh node is
double-sided, and every physically-based material has metalness and roughness
equal to 0.5 — unconditionally, whether or not the source asset specified
them. -/
theorem processed_materials_double_sided_neutral :
    ∀ (s : SceneState) (m : SceneMesh) (mat : SceneMaterial),
      m ∈ (processModel s).meshes → mat ∈ m.materials → m.isMesh = true →
      mat.side = Side.double ∧
        (mat.isStandard = true → mat.metalness = 1/2 ∧ mat.roughness = 1/2) := by
  intro s m mat hm hmat hmesh
  simp only [processModel, List.mem_map] at hm
  obtain ⟨m0, hm0, rfl⟩ := hm
  by_cases h0 : m0.isMesh
  · simp only [normalizeMesh, h0, if_true, List.mem_map] at hmat
    obtain ⟨mat0, hmat0, rfl⟩ := hmat
    by_cases hstd : mat0.isStandard <;> simp [normalizeMaterial, hstd]
  · simp only [normalizeMesh, h0, if_false] at hmat hmesh
    exact absurd hmesh (by simp [h0])

/-- Witness for the amended C5 theorem at the authored scene. -/
theorem processed_materials_double_sided_neutral_witness :
    (SceneMaterial.mk true Side.double (1/2) (1/2) "#aabbcc" true).side = Side.double ∧
      ((SceneMaterial.mk true Side.double (1/2) (1/2) "#aabbcc" true).isStandard = true →
        (SceneMaterial.mk true Side.double (1/2) (1/2) "#aabbcc" true).metalness = 1/2 ∧
        (SceneMaterial.mk true Side.double (1/2) (1/2) "#aabbcc" true).roughness = 1/2) :=
  processed_materials_double_sided_neutral authoredScene
    (SceneMesh.mk true [SceneMaterial.mk true Side.double (1/2) (1/2) "#aabbcc" true])
    (SceneMaterial.mk true Side.double (1/2) (1/2) "#aabbcc" true)
    (by norm_num [processModel, normalizeMesh, normalizeMaterial, authoredScene,
          authoredMaterial, List.mem_singleton])
    (by simp) rfl

/-- C6: confirmed.  For a raw scene whose bounding box has positive maximum
dimension `d`, the processing effect scales uniformly by `2 / d` and
translates by `-center * scale`; afterwards the scene's world-space bounding
box has maximum dimension exactly `2` (the arithmetic is exact over `ℚ`) and
its center is the origin. -/
theorem normalization_canonical_framing :
    ∀ s : SceneState, 0 < s.rawBox.maxDim →
      (processModel s).scale =
        ⟨2 / s.rawBox.maxDim, 2 / s.rawBox.maxDim, 2 / s.rawBox.maxDim⟩ ∧
      (processModel s).worldBox.maxDim = 2 ∧
      (processModel s).worldBox.center = ⟨0, 0, 0⟩ := by
  intro s hd
  obtain ⟨pos, sc, rot, ms, ⟨⟨ax, ay, az⟩, ⟨bx, b1, bz⟩⟩⟩ := s
  simp only [Box3.maxDim, Box3.size, Vec3.sub] at hd ⊢
  have hc : (0:ℚ) ≤ 2 / Max.max (Max.max (bx - ax) (b1 - ay)) (bz - az) := by positivity
  refine ⟨?_, ?_, ?_⟩
  · simp [processModel, Box3.maxDim, Box3.size, Vec3.sub, hd]
  · simp only [processModel, SceneState.worldBox, Box3.maxDim, Box3.size, Box3.center,
      Vec3.sub, Vec3.add, Vec3.smul, hd, if_true, gt_iff_lt]
    set c : ℚ := 2 / Max.max (Max.max (bx - ax) (b1 - ay)) (bz - az) with hcdef
    have e1 : ∀ p q r : ℚ, (c * q + r) - (c * p + r) = c * (q - p) := by intro p q r; ring
    rw [e1, e1, e1, rat_mul_max _ _ _ hc, rat_mul_max _ _ _ hc, hcdef]
    field_simp
  · simp only [processModel, SceneState.worldBox, Box3.maxDim, Box3.size, Box3.center,
      Vec3.sub, Vec3.add, Vec3.smul, hd, if_true, gt_iff_lt, Vec3.mk.injEq]
    refine ⟨?_, ?_, ?_⟩ <;> ring

/-- Witness for C6 at a scene whose raw bounding box is `(0,0,0)–(4,2,1)`
(maximum dimension 4). -/
theorem normalization_canonical_framing_witness :
    0 < authoredScene.rawBox.maxDim ∧
    (processModel authoredScene).worldBox.maxDim = 2 ∧
    (processModel authoredScene).worldBox.center = ⟨0, 0, 0⟩ :=
  ⟨by norm_num [authoredScene, Box3.maxDim, Box3.size, Vec3.sub],
   (normalization_canonical_framing authoredScene
      (by norm_num [authoredScene, Box3.maxDim, Box3.size, Vec3.sub])).2.1,
   (normalization_canonical_framing authoredScene
      (by norm_num [authoredScene, Box3.maxDim, Box3.size, Vec3.sub])).2.2⟩

/-- An absent tint leaves every material's color alone
(`ModelViewer.tsx` lines 206–208 guard the assignment with `if (transform.color)`). -/
theorem applyMaterialTransform_color_none {t : ModelTransform} (h : t.color = none)
    (m : SceneMaterial) : (applyMaterialTransform t m).color = m.color := by
  by_cases hs : m.isStandard <;> simp [applyMaterialTransform, hs, h]

/-- An undefined wireframe flag leaves every material's wireframe state alone
(lines 209–211 guard the assignment with `if (transform.wireframe !== undefined)`). -/
theorem applyMaterialTransform_wireframe_none {t : ModelTransform} (h : t.wireframe = none)
    (m : SceneMaterial) : (applyMaterialTransform t m).wireframe = m.wireframe := by
  by_cases hs : m.isStandard <;> simp [applyMaterialTransform, hs, h]

/-- C10: confirmed.  Applying a transform with an absent tint color leaves
every material's color unchanged — including colors set by earlier
applications — and likewise an undefined wireframe flag leaves every
material's wireframe state unchanged: omitted fields do not reset anything,
so the material state after `apply` depends on the prior scene state. -/
theorem absent_fields_leave_materials_unchanged :
    ∀ (d2r : ℚ → ℚ) (s : SceneState) (t : ModelTransform),
      (t.color = none →
        (applyTransformEffect d2r s t).meshes.map
            (fun m => m.materials.map (fun mat => mat.color)) =
          s.meshes.map (fun m => m.materials.map (fun mat => mat.color))) ∧
      (t.wireframe = none →
        (applyTransformEffect d2r s t).meshes.map
            (fun m => m.materials.map (fun mat => mat.wireframe)) =
          s.meshes.map (fun m => m.materials.map (fun mat => mat.wireframe))) := by
  intro d2r s t
  constructor <;> intro h <;>
    · simp only [applyTransformEffect, List.map_map]
      apply map_eq_of_fun_eq
      intro m
      cases hm : m.isMesh
      · simp [Function.comp, hm]
      · simp only [Function.comp, hm, if_true, List.map_map]
        apply map_eq_of_fun_eq
        intro mat
        first
          | exact applyMaterialTransform_color_none h mat
          | exact applyMaterialTransform_wireframe_none h mat

/-- Witness for C10: the transform with `color = none` and `wireframe = none`
applied to the authored scene preserves the authored color and wireframe. -/
theorem absent_fields_leave_materials_unchanged_witness :
    (applyTransformEffect id authoredScene doubleTransform).meshes.map
        (fun m => m.materials.map (fun mat => mat.color)) =
      authoredScene.meshes.map (fun m => m.materials.map (fun mat => mat.color)) ∧
    (applyTransformEffect id authoredScene doubleTransform).meshes.map
        (fun m => m.materials.map (fun mat => mat.wireframe)) =
      authoredScene.meshes.map (fun m => m.materials.map (fun mat => mat.wireframe)) :=
  ⟨(absent_fields_leave_materials_unchanged id authoredScene doubleTransform).1 rfl,
   (absent_fields_leave_materials_unchanged id authoredScene doubleTransform).2 rfl⟩

/-- A URL that starts with `http` is not the empty string. -/
theorem jsStartsWith_http_ne_empty {u : String} (h : jsStartsWith u "http" = true) :
    ¬u = "" := by
  intro he
  subst he
  simp [jsStartsWith, List.isPrefixOf] at h

/-- A URL that starts with `http` does not start with `/`. -/
theorem jsStartsWith_http_not_slash {u : String} (h : jsStartsWith u "http" = true) :
    jsStartsWith u "/" = false := by
  unfold jsStartsWith at h ⊢
  cases hu : u.data with
  | nil => rw [hu] at h; simp [List.isPrefixOf] at h
  | cons c cs =>
    rw [hu] at h
    simp only [show ("http").data = ['h','t','t','p'] from rfl, List.isPrefixOf,
      Bool.and_eq_true, beq_iff_eq] at h
    obtain ⟨hc, -⟩ := h
    subst hc
    simp [List.isPrefixOf]

/-- A URL classified as an unknown external host starts with `http`. -/
theorem classify_unknown_http {u : String}
    (h : Resolver.classify u = RefClass.unknownExternalHost) :
    jsStartsWith u "http" = true := by
  unfold Resolver.classify at h
  by_cases h1 : (jsIncludes u "meshy.ai" || jsIncludes u "storage.googleapis.com") = true
  · rw [if_pos h1] at h; cases h
  · rw [if_neg h1] at h
    by_cases h2 : jsStartsWith u "http" = true
    · exact h2
    · rw [if_neg h2] at h; cases h

/-- `cacheAndGetLocalUrl` returns the Content Cache unchanged: no branch of
the source function uploads anything. -/
theorem cacheAnd_cache_unchanged (cache : List (String × String)) (u : String) :
    (cacheAndGetLocalUrl cache u).cache = cache := by
  by_cases h : jsStartsWith u "/" = true <;>
    cases hl : List.lookup (cacheKey u) cache <;>
      simp [cacheAndGetLocalUrl, h, hl]

/-- `setupModelUrl` returns the Content Cache unchanged. -/
theorem setup_cache_unchanged (headOk : String → Bool) (cache : List (String × String))
    (u : String) : (setupModelUrl headOk cache u).cache = cache := by
  by_cases he : u = ""
  · simp [setupModelUrl, he]
  · simp only [setupModelUrl, if_neg he]
    cases hc : Resolver.classify u
    · exact cacheAnd_cache_unchanged cache u
    · exact cacheAnd_cache_unchanged cache u
    · by_cases hh : headOk (if jsStartsWith u "/" = true then u else "/" ++ u) = true <;>
        simp [hh]

/-- For any `http…` URL — provider-hosted or external — `setupModelUrl`
delegates to `cacheAndGetLocalUrl`. -/
theorem setup_eq_cacheAnd (headOk : String → Bool) (cache : List (String × String))
    {u : String} (h : jsStartsWith u "http" = true) :
    setupModelUrl headOk cache u = cacheAndGetLocalUrl cache u := by
  simp only [setupModelUrl, if_neg (jsStartsWith_http_ne_empty h)]
  cases hc : Resolver.classify u
  · rfl
  · rfl
  · exfalso
    unfold Resolver.classify at hc
    by_cases h1 : (jsIncludes u "meshy.ai" || jsIncludes u "storage.googleapis.com") = true
    · rw [if_pos h1] at hc; cases hc
    · rw [if_neg h1, if_pos h] at hc; cases hc

/-- C2 counterexample: the claim fails on the code.  A successful resolution
of a provider URL on a cache miss settles on the proxy route, but afterwards
the Content Cache still has no entry for the normalized reference — no branch
of `cacheAndGetLocalUrl` inserts the fetched blob — and a second resolution of
the same reference issues another network fetch of the asset. -/
theorem resolver_never_populates_cache_cex :
    (resolveModel (fun _ => true) [] "https://assets.meshy.ai/m.glb").result =
      ResolvedUrl.proxyUrl "/api/proxy-model?url=https%3A%2F%2Fassets.meshy.ai%2Fm.glb" ∧
    (resolveModel (fun _ => true) [] "https://assets.meshy.ai/m.glb").cache.lookup
      (cacheKey "https://assets.meshy.ai/m.glb") = none ∧
    ((resolveModel (fun _ => true)
        (resolveModel (fun _ => true) [] "https://assets.meshy.ai/m.glb").cache
        "https://assets.meshy.ai/m.glb").actions.any
      FetchAction.isNetworkAssetFetch) = true := by
  refine ⟨by decide, by decide, by decide⟩

/-- C2 (amended): resolution only ever *reads* the Content Cache.  A cache hit
short-circuits every network fetch of the asset and returns an object URL over
the cached blob; the cache is returned unchanged by every resolution; and on a
cache miss for an `http…` reference the resolution (and hence any repeat of
it) fetches the asset over the network. -/
theorem resolver_cache_check_only :
    (∀ (headOk : String → Bool) (cache : List (String × String)) (u blob : String),
      jsStartsWith u "http" = true →
      cache.lookup (cacheKey u) = some blob →
      (resolveModel headOk cache u).result = ResolvedUrl.objectUrl blob ∧
      (resolveModel headOk cache u).actions.any FetchAction.isNetworkAssetFetch = false) ∧
    (∀ (headOk : String → Bool) (cache : List (String × String)) (u : String),
      (resolveModel headOk cache u).cache = cache) ∧
    (∀ (headOk : String → Bool) (cache : List (String × String)) (u : String),
      jsStartsWith u "http" = true →
      cache.lookup (cacheKey u) = none →
      (resolveModel headOk cache u).actions.any FetchAction.isNetworkAssetFetch = true) := by
  refine ⟨?_, ?_, ?_⟩
  · intro headOk cache u blob h hl
    unfold resolveModel
    rw [setup_eq_cacheAnd headOk cache h]
    simp [cacheAndGetLocalUrl, jsStartsWith_http_not_slash h, hl, finalLoad,
      FetchAction.isNetworkAssetFetch]
  · intro headOk cache u
    unfold resolveModel
    exact setup_cache_unchanged headOk cache u
  · intro headOk cache u h hl
    unfold resolveModel
    rw [setup_eq_cacheAnd headOk cache h]
    simp [cacheAndGetLocalUrl, jsStartsWith_http_not_slash h, hl, finalLoad,
      FetchAction.isNetworkAssetFetch]

/-- Witness for the amended C2 theorem: a cache hit for an external URL is
served from the cache with no network fetch; on the empty cache the same URL
leaves the cache empty and is fetched over the network. -/
theorem resolver_cache_check_only_witness :
    (resolveModel (fun _ => false)
        [(cacheKey "https://example.com/model.glb", "BLOB")]
        "https://example.com/model.glb").result = ResolvedUrl.objectUrl "BLOB" ∧
    (resolveModel (fun _ => false)
        [(cacheKey "https://example.com/model.glb", "BLOB")]
        "https://example.com/model.glb").actions.any FetchAction.isNetworkAssetFetch = false ∧
    (resolveModel (fun _ => false) [] "https://example.com/model.glb").cache = [] ∧
    (resolveModel (fun _ => false) [] "https://example.com/model.glb").actions.any
      FetchAction.isNetworkAssetFetch = true :=
  ⟨(resolver_cache_check_only.1 (fun _ => false) _ _ "BLOB" (by decide) (by decide)).1,
   (resolver_cache_check_only.1 (fun _ => false) _ _ "BLOB" (by decide) (by decide)).2,
   resolver_cache_check_only.2.1 (fun _ => false) [] _,
   resolver_cache_check_only.2.2 (fun _ => false) [] _ (by decide) (by decide)⟩

/-- C3 counterexample: the claim fails on the code.  For a reference
classified as an unknown external host, on a cache miss the resolver issues
*no* direct existence probe at all — even in an environment where every HEAD
probe would succeed (`headOk = fun _ => true`) — and settles directly on the
Transfer Proxy route. -/
theorem external_host_skips_direct_probe_cex :
    Resolver.classify "https://example.com/model.glb" = RefClass.unknownExternalHost ∧
    (resolveModel (fun _ => true) [] "https://example.com/model.glb").actions =
      [FetchAction.cacheDownload (cacheKey "https://example.com/model.glb"),
       FetchAction.proxyFetch "/api/proxy-model?url=https%3A%2F%2Fexample.com%2Fmodel.glb"] ∧
    (resolveModel (fun _ => true) [] "https://example.com/model.glb").actions.any
      FetchAction.isHeadProbe = false := by
  refine ⟨by decide, by decide, by decide⟩

/-- C3 (amended): for a reference classified as an unknown external host whose
cache lookup misses, resolution performs no direct existence probe and no
direct fetch of the reference: after the cache check it goes straight to the
Transfer Proxy, which is attempted exactly once.  (Direct HEAD probes are
issued only for local paths.) -/
theorem external_host_goes_straight_to_proxy :
    ∀ (headOk : String → Bool) (cache : List (String × String)) (u : String),
      Resolver.classify u = RefClass.unknownExternalHost →
      cache.lookup (cacheKey u) = none →
      (resolveModel headOk cache u).actions =
        [FetchAction.cacheDownload (cacheKey u),
         FetchAction.proxyFetch ("/api/proxy-model?url=" ++ encodeURIComponent u)] ∧
      (resolveModel headOk cache u).actions.countP FetchAction.isProxyFetch = 1 ∧
      (resolveModel headOk cache u).actions.countP FetchAction.isHeadProbe = 0 := by
  intro headOk cache u hclass hl
  have h := classify_unknown_http hclass
  unfold resolveModel
  rw [setup_eq_cacheAnd headOk cache h]
  simp [cacheAndGetLocalUrl, jsStartsWith_http_not_slash h, hl, finalLoad,
    FetchAction.isProxyFetch, FetchAction.isHeadProbe, List.countP_cons, List.countP_nil]

/-- Witness for the amended C3 theorem at a concrete external URL on the empty
cache. -/
theorem external_host_goes_straight_to_proxy_witness :
    (resolveModel (fun _ => false) [] "https://cdn.example.net/a.glb").actions =
      [FetchAction.cacheDownload (cacheKey "https://cdn.example.net/a.glb"),
       FetchAction.proxyFetch
         ("/api/proxy-model?url=" ++ encodeURIComponent "https://cdn.example.net/a.glb")] ∧
    (resolveModel (fun _ => false) [] "https://cdn.example.net/a.glb").actions.countP
      FetchAction.isProxyFetch = 1 ∧
    (resolveModel (fun _ => false) [] "https://cdn.example.net/a.glb").actions.countP
      FetchAction.isHeadProbe = 0 :=
  external_host_goes_straight_to_proxy (fun _ => false) [] "https://cdn.example.net/a.glb"
    (by decide) (by decide)

/-- A context-loss event never changes the render quality. -/
theorem quality_step_contextLost (s : CompState) :
    (step s SceneEvent.contextLost).renderQuality = s.renderQuality := by
  show (handleContextLost s).renderQuality = s.renderQuality
  unfold handleContextLost
  split <;> rfl

/-- The retry timer firing either keeps the render quality or applies
`reduceRenderQuality` to it. -/
theorem quality_step_fire (s : CompState) :
    (step s SceneEvent.retryTimerFired).renderQuality = s.renderQuality ∨
    (step s SceneEvent.retryTimerFired).renderQuality = reduceRenderQuality s.renderQuality := by
  show (fireRetryTimer s).renderQuality = _ ∨ (fireRetryTimer s).renderQuality = _
  unfold fireRetryTimer
  cases hp : s.pendingRetry with
  | none => left; rfl
  | some pr =>
    obtain ⟨d, cap⟩ := pr
    by_cases hcap : cap > 0
    · right; simp [hcap]
    · left; simp [hcap]

/-- In every reachable state the render quality is either the initial
`[1, 1.5]` DPR range or the reduced `[0.5, 1]` range. -/
theorem reachable_quality_inv {s : CompState} (h : Reachable s) :
    s.renderQuality = (1, 3/2) ∨ s.renderQuality = (1/2, 1) := by
  induction h with
  | init => left; rfl
  | next h e ih =>
    cases e
    case contextLost => rw [quality_step_contextLost]; exact ih
    case retryTimerFired =>
      rcases quality_step_fire _ with hq | hq
      · rw [hq]; exact ih
      · rw [hq]
        rcases ih with h1 | h1 <;> rw [h1] <;> norm_num [reduceRenderQuality]
    case contextRestored => exact ih
    case modelChanged => exact ih
    case dismissError => exact ih

/-- From a state satisfying the quality invariant, no event increases either
bound of the render-quality range. -/
theorem quality_step_le (s : CompState)
    (hinv : s.renderQuality = (1, 3/2) ∨ s.renderQuality = (1/2, 1)) (e : SceneEvent) :
    (step s e).renderQuality.1 ≤ s.renderQuality.1 ∧
    (step s e).renderQuality.2 ≤ s.renderQuality.2 := by
  cases e
  case contextLost => rw [quality_step_contextLost]; exact ⟨le_refl _, le_refl _⟩
  case retryTimerFired =>
    rcases quality_step_fire s with hq | hq
    · rw [hq]; exact ⟨le_refl _, le_refl _⟩
    · rw [hq]
      rcases hinv with h1 | h1 <;> rw [h1] <;> norm_num [reduceRenderQuality]
  case contextRestored => exact ⟨le_refl _, le_refl _⟩
  case modelChanged => exact ⟨le_refl _, le_refl _⟩
  case dismissError => exact ⟨le_refl _, le_refl _⟩

/-- C4: confirmed.  In the consecutive-loss run, the restoration attempt after
the 1st loss is scheduled at 1000 ms, after the 2nd at 2000 ms, after the 3rd
at 4000 ms; once `retryCount` has reached `maxRetries = 3`, a further loss
schedules no timer and surfaces the non-auto-recoverable error.  In general a
loss at `retryCount < 3` schedules `min(1000·2^retryCount, 8000)` ms, and a
loss at `retryCount ≥ 3` schedules nothing and sets the error. -/
theorem backoff_schedule_and_abandonment :
    (step initialState SceneEvent.contextLost).pendingRetry = some (1000, 0) ∧
    (step (lossFireTrace 1) SceneEvent.contextLost).pendingRetry = some (2000, 1) ∧
    (step (lossFireTrace 2) SceneEvent.contextLost).pendingRetry = some (4000, 2) ∧
    (step (lossFireTrace 3) SceneEvent.contextLost).pendingRetry = none ∧
    (step (lossFireTrace 3) SceneEvent.contextLost).error =
      some "WebGL context could not be restored. Please refresh the page." ∧
    (∀ s : CompState, s.retryCount < maxRetries →
      (step s SceneEvent.contextLost).pendingRetry =
        some (Min.min (1000 * 2 ^ s.retryCount) 8000, s.retryCount)) ∧
    (∀ s : CompState, maxRetries ≤ s.retryCount →
      (step s SceneEvent.contextLost).pendingRetry = none ∧
      (step s SceneEvent.contextLost).error =
        some "WebGL context could not be restored. Please refresh the page.") := by
  refine ⟨by decide, by decide, by decide, by decide, by decide, ?_, ?_⟩
  · intro s h
    show (handleContextLost s).pendingRetry = _
    unfold handleContextLost
    rw [if_pos h]
    rfl
  · intro s h
    refine ⟨?_, ?_⟩ <;>
      · show _ = _
        unfold step handleContextLost
        rw [if_neg (Nat.not_lt.mpr h)]

/-- Witness for C4's general clauses at `retryCount = 1` and `retryCount = 5`. -/
theorem backoff_schedule_and_abandonment_witness :
    (step { initialState with retryCount := 1 } SceneEvent.contextLost).pendingRetry =
      some (Min.min (1000 * 2 ^ 1) 8000, 1) ∧
    (step { initialState with retryCount := 5 } SceneEvent.contextLost).pendingRetry = none :=
  ⟨backoff_schedule_and_abandonment.2.2.2.2.2.1 { initialState with retryCount := 1 }
      (by decide),
   (backoff_schedule_and_abandonment.2.2.2.2.2.2 { initialState with retryCount := 5 }
      (by decide)).1⟩

/-- C7: confirmed.  Quality degradation is a one-way ratchet: from any
reachable state no event raises either bound of the render-quality range; a
successful restoration leaves the quality exactly as it is; after the retry
that follows the first failed restoration attempt (round 2 of the
consecutive-loss run) the quality sits at the reduced `[0.5, 1]`; and the
reduced quality is absorbing — every further event keeps it. -/
theorem render_quality_ratchet :
    (∀ s : CompState, Reachable s → ∀ e : SceneEvent,
      (step s e).renderQuality.1 ≤ s.renderQuality.1 ∧
      (step s e).renderQuality.2 ≤ s.renderQuality.2) ∧
    (∀ s : CompState, (step s SceneEvent.contextRestored).renderQuality = s.renderQuality) ∧
    (lossFireTrace 2).renderQuality = (1/2, 1) ∧
    (∀ (s : CompState) (e : SceneEvent), s.renderQuality = (1/2, 1) →
      (step s e).renderQuality = (1/2, 1)) := by
  refine ⟨?_, ?_, ?_, ?_⟩
  · intro s hs e
    exact quality_step_le s (reachable_quality_inv hs) e
  · intro s; rfl
  · norm_num [lossFireTrace, step, handleContextLost, fireRetryTimer, initialState,
      getRetryDelay, maxRetries, reduceRenderQuality]
  · intro s e h
    cases e
    case contextLost => rw [quality_step_contextLost]; exact h
    case retryTimerFired =>
      rcases quality_step_fire s with hq | hq
      · rw [hq]; exact h
      · rw [hq, h]; norm_num [reduceRenderQuality]
    case contextRestored => exact h
    case modelChanged => exact h
    case dismissError => exact h

/-- Witness for C7 at the (reachable) initial state and at a reduced-quality
state. -/
theorem render_quality_ratchet_witness :
    ((step initialState SceneEvent.contextLost).renderQuality.1 ≤
        initialState.renderQuality.1 ∧
      (step initialState SceneEvent.contextLost).renderQuality.2 ≤
        initialState.renderQuality.2) ∧
    (step ⟨0, false, none, none, (1/2, 1), true, false⟩
        SceneEvent.retryTimerFired).renderQuality = (1/2, 1) :=
  ⟨render_quality_ratchet.1 initialState Reachable.init SceneEvent.contextLost,
   render_quality_ratchet.2.2.2 ⟨0, false, none, none, (1/2, 1), true, false⟩
     SceneEvent.retryTimerFired rfl⟩

/-- C8 counterexample: the claim fails on the code.  The proxy decides with a
substring test on the whole URL, not on the target host: for a URL whose
target host is `host.example` (not the generation provider) but whose *path*
contains `meshy.ai`, the forwarded request carries the server-held provider
credential, and the caller's bearer token — although present — is not
forwarded.  (This also means the provider credential can leak to an arbitrary
third-party host.) -/
theorem proxy_substring_check_leaks_credential_cex :
    jsIncludes "https://host.example/dir/meshy.ai/file.glb" "meshy.ai" = true ∧
    isProviderHost (hostOf "https://host.example/dir/meshy.ai/file.glb") = false ∧
    isTruthy (some "callerTok") = true ∧
    selectAuthHeader "https://host.example/dir/meshy.ai/file.glb" (some "callerTok")
      "PROVIDERKEY" = some "Bearer PROVIDERKEY" ∧
    ¬selectAuthHeader "https://host.example/dir/meshy.ai/file.glb" (some "callerTok")
      "PROVIDERKEY" = some ("Bearer " ++ "callerTok") := by
  refine ⟨by decide, by decide, by decide, by decide, by decide⟩

/-- C8 (amended): for every request whose URL *contains the substring*
`meshy.ai` — which includes every request whose target host is the provider —
the auth header is independent of the caller's token (so the caller's token
never leaks there) and, when the server-held key is configured, is exactly the
provider credential.  For every URL without that substring, the caller's
bearer token is forwarded iff it is present and non-empty. -/
theorem proxy_auth_header_selection :
    ∀ (url key : String) (t t1 t2 : Option String),
      (jsIncludes url "meshy.ai" = true →
        selectAuthHeader url t1 key = selectAuthHeader url t2 key ∧
        (¬key = "" → selectAuthHeader url t key = some ("Bearer " ++ key))) ∧
      (jsIncludes url "meshy.ai" = false →
        selectAuthHeader url t key =
          if isTruthy t then some ("Bearer " ++ t.getD "") else none) := by
  intro url key t t1 t2
  constructor
  · intro h
    refine ⟨by simp [selectAuthHeader, h], fun hk => by simp [selectAuthHeader, h, hk]⟩
  · intro h
    cases ht : isTruthy t <;> simp [selectAuthHeader, h, ht]

/-- Witness for the amended C8 theorem at provider and third-party URLs. -/
theorem proxy_auth_header_selection_witness :
    selectAuthHeader "https://assets.meshy.ai/m.glb" (some "callerTok") "KEY" =
      selectAuthHeader "https://assets.meshy.ai/m.glb" none "KEY" ∧
    selectAuthHeader "https://assets.meshy.ai/m.glb" (some "other") "KEY" =
      some ("Bearer " ++ "KEY") ∧
    selectAuthHeader "https://third.party/x.glb" (some "callerTok") "KEY" =
      (if isTruthy (some "callerTok") then
        some ("Bearer " ++ (Option.some "callerTok").getD "") else none) :=
  ⟨((proxy_auth_header_selection "https://assets.meshy.ai/m.glb" "KEY" none
      (some "callerTok") none).1 (by decide)).1,
   ((proxy_auth_header_selection "https://assets.meshy.ai/m.glb" "KEY" (some "other")
      none none).1 (by decide)).2 (by decide),
   (proxy_auth_header_selection "https://third.party/x.glb" "KEY" (some "callerTok")
      none none).2 (by decide)⟩

mutual

/-- Every node the reclaimer disposes is a mesh, invisible, and unattached. -/
theorem collectDisposed_flags :
    ∀ n : SceneNode, ∀ d ∈ n.collectDisposed,
      d.isMesh = true ∧ d.visible = false ∧ d.hasParent = false
  | SceneNode.mk m v p cs => by
    intro d hd
    unfold SceneNode.collectDisposed at hd
    rcases List.mem_append.mp hd with h1 | h2
    · by_cases hc : (m && !v && !p) = true
      · rw [if_pos hc] at h1
        simp only [Bool.and_eq_true, Bool.not_eq_true'] at hc
        rcases List.mem_singleton.mp h1 with rfl
        exact ⟨hc.1.1, hc.1.2, hc.2⟩
      · rw [if_neg hc] at h1; cases h1
    · exact collectDisposedList_flags cs d h2

/-- The list form of `collectDisposed_flags`. -/
theorem collectDisposedList_flags :
    ∀ l : List SceneNode, ∀ d ∈ collectDisposedList l,
      d.isMesh = true ∧ d.visible = false ∧ d.hasParent = false
  | [] => by intro d hd; unfold collectDisposedList at hd; cases hd
  | n :: rest => by
    intro d hd
    unfold collectDisposedList at hd
    rcases List.mem_append.mp hd with h1 | h2
    · exact collectDisposed_flags n d h1
    · exact collectDisposedList_flags rest d h2

end

mutual

/-- A parent-consistent node whose `parent` is set is never disposed, nor is
anything in its subtree. -/
theorem collectDisposed_of_parent :
    ∀ n : SceneNode, n.consistent = true → n.hasParent = true → n.collectDisposed = []
  | SceneNode.mk m v p cs => by
    intro hc hp
    simp only [SceneNode.hasParent] at hp
    subst hp
    unfold SceneNode.collectDisposed
    simp only [Bool.not_true, Bool.and_false, if_false, List.nil_append]
    exact collectDisposedList_of_consistent cs hc

/-- No node of a parent-consistent children list is ever disposed. -/
theorem collectDisposedList_of_consistent :
    ∀ l : List SceneNode, consistentChildren l = true → collectDisposedList l = []
  | [] => by intro h; rfl
  | n :: rest => by
    intro hc
    unfold consistentChildren at hc
    simp only [Bool.and_eq_true] at hc
    unfold collectDisposedList
    rw [collectDisposed_of_parent n hc.1.2 hc.1.1,
      collectDisposedList_of_consistent rest hc.2]
    rfl

end

/-- C9: confirmed.  The periodic reclaimer disposes geometry/material
resources only for renderable nodes that are both invisible and unattached
(`!mesh.visible && mesh.parent === null`), and — because `Object3D.add` keeps
the `parent` field of every attached child non-null — it never disposes any
node reachable from the traversed scene graph (whose root is the non-mesh
`THREE.Scene`), even a temporarily hidden one. -/
theorem reclaimer_spares_reachable :
    (∀ n d : SceneNode, d ∈ n.collectDisposed →
      d.isMesh = true ∧ d.visible = false ∧ d.hasParent = false) ∧
    (∀ n : SceneNode, n.consistent = true → n.isMesh = false → n.collectDisposed = []) := by
  constructor
  · intro n d hd
    exact collectDisposed_flags n d hd
  · intro n hc hm
    cases n with
    | mk m v p cs =>
      simp only [SceneNode.isMesh] at hm
      subst hm
      unfold SceneNode.collectDisposed
      simp only [Bool.false_and, if_false, List.nil_append]
      exact collectDisposedList_of_consistent cs hc

/-- Witness for C9: a detached invisible mesh is disposed with the claimed
flags, while a consistent scene with a hidden attached mesh child disposes
nothing. -/
theorem reclaimer_spares_reachable_witness :
    ((SceneNode.mk true false false []).isMesh = true ∧
      (SceneNode.mk true false false []).visible = false ∧
      (SceneNode.mk true false false []).hasParent = false) ∧
    SceneNode.collectDisposed
      (SceneNode.mk false true false [SceneNode.mk true false true []]) = [] :=
  ⟨reclaimer_spares_reachable.1 (SceneNode.mk true false false [])
      (SceneNode.mk true false false [])
      (by simp [SceneNode.collectDisposed, collectDisposedList]),
   reclaimer_spares_reachable.2
      (SceneNode.mk false true false [SceneNode.mk true false true []]) rfl rfl⟩
